import Mathlib

/-!
# pkg/iostreams: the terminal stream bundle

A shallow embedding of `src/pkg/iostreams/iostreams.go`.

* A Go `string` is its sequence of bytes (`GoString`).
* The struct `IOStreams` is a record; a method with a pointer receiver is a
  function from the record to the record after the call.
* Everything the package asks of the operating system or of another library
  (terminal probes, the process environment, the tokenizer, the executable
  search, pipe creation, process start, the allocator) is a field of `World`,
  the answers the outside gives at the time of one call.  Each method also
  returns the list of outside calls it made, in order (`Effect`).
* A run-time panic (an index out of range, a failed type assertion) is the
  result `Ret.panic`.
-/

namespace iostreams

/-- A Go string: the sequence of its bytes. -/
abbrev GoString := List Nat

/-- The bytes of a string literal of the source.  Every literal of the source is
ASCII, where the code point of a character is its single UTF-8 byte. -/
def lit (s : String) : GoString := s.toList.map Char.toNat

/-- Go's `strings.HasPrefix(s, pre)`: `len(s) >= len(pre) && s[0:len(pre)] == pre`. -/
def HasPrefix (s pre : GoString) : Bool :=
  decide (pre.length ≤ s.length) && decide (s.take pre.length = pre)

/-- An `error` value of Go, as returned by a library. -/
structure GoError where
  msg : GoString
deriving DecidableEq, Repr

/-- The dynamic values the stream fields of the bundle hold. -/
inductive Handle where
  /-- An `*os.File` with its descriptor. -/
  | file (fd : Nat)
  /-- A `*bytes.Buffer`. -/
  | buffer (id : Nat)
  /-- The value `ioutil.NopCloser(buf)`. -/
  | nopCloser (id : Nat)
  /-- The write end that `(*exec.Cmd).StdinPipe` returns, with its descriptor: an
  `*os.File` in the Go releases this repository builds with (it imports the standard
  `slices` package). -/
  | pipe (fd : Nat)
  /-- Any other `io.Writer`, such as the wrapper `colorable.NewColorable` makes on Windows. -/
  | writer (id : Nat)
deriving DecidableEq, Repr

/-- The type assertion `h.(*os.File)`: the descriptor when it succeeds. -/
def Handle.asFile : Handle → Option Nat
  | .file fd => some fd
  | .pipe fd => some fd
  | .buffer _ => none
  | .nopCloser _ => none
  | .writer _ => none

/-- Whether the type assertion `h.(io.ReadCloser)` succeeds: the dynamic type has
both `Read` and `Close`. -/
def Handle.isReadCloser : Handle → Bool
  | .file _ => true
  | .nopCloser _ => true
  | .pipe _ => true
  | .buffer _ => false
  | .writer _ => false

/-- The fields of `*spinner.Spinner` the package touches; `addr` is the identity of
the allocated object and `active` whether its animation loop is running. -/
structure Spinner where
  addr : Nat
  Prefix : GoString
  FinalMSG : GoString
  Writer : Handle
  active : Bool
deriving DecidableEq, Repr

/-- The fields of `*exec.Cmd` that `StartPager` sets. -/
structure Cmd where
  Path : GoString
  Args : List GoString
  Env : List GoString
  Stdout : Handle
  Stderr : Handle
deriving DecidableEq, Repr

/-- The struct `IOStreams`.  A nil interface or nil pointer is `none`. -/
structure IOStreams where
  In : Handle
  Out : Handle
  ErrOut : Handle
  originalOut : Option Handle
  colorEnabled : Bool
  is256enabled : Bool
  terminalTheme : GoString
  progressIndicatorEnabled : Bool
  progressIndicator : Option Spinner
  stdinTTYOverride : Bool
  stdinIsTTY : Bool
  stdoutTTYOverride : Bool
  stdoutIsTTY : Bool
  stderrTTYOverride : Bool
  stderrIsTTY : Bool
  pagerCommand : GoString
  pagerProcess : Option Nat
  neverPrompt : Bool
  TempFileOverride : Option Handle
deriving DecidableEq, Repr

/-- What the outside answers at the time of one call. -/
structure World where
  /-- The result of `os.Environ()`. -/
  environ : List GoString
  /-- The result of `isatty.IsTerminal(fd)`. -/
  isatty : Nat → Bool
  /-- The result of `isatty.IsCygwinTerminal(fd)`. -/
  isCygwin : Nat → Bool
  /-- The result of `termenv.HasDarkBackground()`. -/
  hasDarkBackground : Bool
  /-- The result of `shlex.Split(cmd)`. -/
  shlexSplit : GoString → Except GoError (List GoString)
  /-- The result of `safeexec.LookPath(file)`. -/
  lookPath : GoString → Except GoError GoString
  /-- The result of `pagerCmd.StdinPipe()`: the descriptor of the write end of the new pipe. -/
  stdinPipe : Except GoError Nat
  /-- The result of `pagerCmd.Start()`: the started process. -/
  start : Except GoError Nat
  /-- The address of the object the next `spinner.New` allocates. -/
  newSpinner : Nat
  /-- The result of `colorable.NewColorable(f)` for the file with this descriptor. -/
  newColorable : Nat → Handle
  /-- The result of `EnvColorForced()`, a function of another file of this package. -/
  envColorForced : Bool
  /-- The result of `EnvColorDisabled()`, a function of another file of this package. -/
  envColorDisabled : Bool
  /-- The result of `Is256ColorSupported()`, a function of another file of this package. -/
  is256ColorSupported : Bool

/-- The calls a method makes to the outside. -/
inductive Effect where
  | isatty (fd : Nat)
  | isCygwin (fd : Nat)
  | environ
  | getenv (name : GoString)
  | hasDarkBackground
  | shlexSplit (cmd : GoString)
  | lookPath (file : GoString)
  | stdinPipe
  | processStart (cmd : Cmd)
  | close (h : Handle)
  | processWait (pid : Nat)
  | spinnerNew (addr : Nat)
  | spinnerStart (addr : Nat)
  /-- The call `sp.Stop()`, with the spinner as it is when it stops. -/
  | spinnerStop (sp : Spinner)
deriving DecidableEq, Repr

/-- The terminal probes among the outside calls. -/
def Effect.isTerminalProbe : Effect → Bool
  | .isatty _ => true
  | .isCygwin _ => true
  | _ => false

/-- How a call ends: it returns a value, or the goroutine panics. -/
inductive Ret (α : Type) where
  | ok (v : α)
  | panic
deriving DecidableEq, Repr

/-- The outcome of a method that may change the bundle: what it returns, the bundle
after the call, and the outside calls it made. -/
structure Res (α : Type) where
  ret : α
  io : IOStreams
  effects : List Effect

/-- Go's `os.LookupEnv(key)` over the environment block: the value of the first entry
`key=value`, and whether there is one. -/
def LookupEnv (environ : List GoString) (key : GoString) : GoString × Bool :=
  match environ.find? (fun e => HasPrefix e (key ++ lit "=")) with
  | some e => (e.drop (key.length + 1), true)
  | none => (lit "", false)

/-- Go's `os.Getenv(key)`. -/
def Getenv (environ : List GoString) (key : GoString) : GoString :=
  (LookupEnv environ key).1

def ColorEnabled (s : IOStreams) : Bool := s.colorEnabled

def ColorSupport256 (s : IOStreams) : Bool := s.is256enabled

def DetectTerminalTheme (w : World) (s : IOStreams) : Res GoString :=
  if !ColorEnabled s then
    ⟨lit "none", { s with terminalTheme := lit "none" }, []⟩
  else if s.pagerProcess ≠ none then
    ⟨lit "none", { s with terminalTheme := lit "none" }, []⟩
  else
    let style := Getenv w.environ (lit "GLAMOUR_STYLE")
    if style ≠ lit "" ∧ style ≠ lit "auto" then
      ⟨lit "none", { s with terminalTheme := lit "none" }, [.getenv (lit "GLAMOUR_STYLE")]⟩
    else if w.hasDarkBackground then
      ⟨lit "dark", { s with terminalTheme := lit "dark" },
        [.getenv (lit "GLAMOUR_STYLE"), .hasDarkBackground]⟩
    else
      ⟨lit "light", { s with terminalTheme := lit "light" },
        [.getenv (lit "GLAMOUR_STYLE"), .hasDarkBackground]⟩

def TerminalTheme (s : IOStreams) : GoString :=
  if s.terminalTheme = lit "" then lit "none" else s.terminalTheme

/-- The source's `isTerminal(f)`: `isatty.IsTerminal(fd) || isatty.IsCygwinTerminal(fd)`,
the second probe made only when the first answers false. -/
def isTerminal (w : World) (fd : Nat) : Bool × List Effect :=
  if w.isatty fd then (true, [.isatty fd])
  else (w.isCygwin fd, [.isatty fd, .isCygwin fd])

def SetStdinTTY (s : IOStreams) (isTTY : Bool) : IOStreams :=
  { s with stdinTTYOverride := true, stdinIsTTY := isTTY }

def IsStdinTTY (w : World) (s : IOStreams) : Bool × List Effect :=
  if s.stdinTTYOverride then (s.stdinIsTTY, [])
  else
    match s.In.asFile with
    | some stdin => isTerminal w stdin
    | none => (false, [])

def SetStdoutTTY (s : IOStreams) (isTTY : Bool) : IOStreams :=
  { s with stdoutTTYOverride := true, stdoutIsTTY := isTTY }

def IsStdoutTTY (w : World) (s : IOStreams) : Bool × List Effect :=
  if s.stdoutTTYOverride then (s.stdoutIsTTY, [])
  else
    match s.Out.asFile with
    | some stdout => isTerminal w stdout
    | none => (false, [])

def SetStderrTTY (s : IOStreams) (isTTY : Bool) : IOStreams :=
  { s with stderrTTYOverride := true, stderrIsTTY := isTTY }

def IsStderrTTY (w : World) (s : IOStreams) : Bool × List Effect :=
  if s.stderrTTYOverride then (s.stderrIsTTY, [])
  else
    match s.ErrOut.asFile with
    | some stderr => isTerminal w stderr
    | none => (false, [])

/-- The source's `IsStdinTTY() && IsStdoutTTY()`: the right operand is evaluated only
when the left one is true. -/
def IsInteractive (w : World) (s : IOStreams) : Bool × List Effect :=
  let a := IsStdinTTY w s
  if a.1 then
    let b := IsStdoutTTY w s
    (b.1, a.2 ++ b.2)
  else (false, a.2)

def SetPager (s : IOStreams) (cmd : GoString) : IOStreams :=
  { s with pagerCommand := cmd }

/-- The loop of `StartPager` over the environment,
`for i := len(pagerEnv) - 1; i >= 0; i--`, entered with `n = i + 1`: the body
reads `pagerEnv[i]` (a panic when out of range) and, for an entry with the prefix
`PAGER=`, replaces the slice by `append(pagerEnv[0:i], pagerEnv[i+1:]...)`. -/
def pagerEnvLoop : Nat → List GoString → Option (List GoString)
  | 0, pagerEnv => some pagerEnv
  | i + 1, pagerEnv =>
    match pagerEnv[i]? with
    | none => none
    | some e =>
      if HasPrefix e (lit "PAGER=") then
        pagerEnvLoop i (pagerEnv.take i ++ pagerEnv.drop (i + 1))
      else pagerEnvLoop i pagerEnv

/-- Lines 173 to 184 of `StartPager`: the environment of the pager child, `none` when
the loop panics. -/
def pagerEnv (environ : List GoString) : Option (List GoString) :=
  match pagerEnvLoop environ.length environ with
  | none => none
  | some env0 =>
    let env1 := if (LookupEnv environ (lit "LESS")).2 then env0 else env0 ++ [lit "LESS=FRX"]
    let env2 := if (LookupEnv environ (lit "LV")).2 then env1 else env1 ++ [lit "LV=-c"]
    some env2

/-- The outside calls of lines 173 to 184. -/
def pagerEnvEffects : List Effect :=
  [.environ, .getenv (lit "LESS"), .getenv (lit "LV")]

def StartPager (w : World) (s : IOStreams) : Res (Ret (Option GoError)) :=
  if s.pagerCommand = lit "" ∨ s.pagerCommand = lit "cat" then ⟨.ok none, s, []⟩
  else
    let tty := IsStdoutTTY w s
    if !tty.1 then ⟨.ok none, s, tty.2⟩
    else
      let e1 := tty.2 ++ [.shlexSplit s.pagerCommand]
      match w.shlexSplit s.pagerCommand with
      | .error err => ⟨.ok (some err), s, e1⟩
      | .ok pagerArgs =>
        let e2 := e1 ++ pagerEnvEffects
        match pagerEnv w.environ with
        | none => ⟨.panic, s, e2⟩
        | some env =>
          match pagerArgs with
          | [] => ⟨.panic, s, e2⟩
          | arg0 :: args =>
            let e3 := e2 ++ [.lookPath arg0]
            match w.lookPath arg0 with
            | .error err => ⟨.ok (some err), s, e3⟩
            | .ok pagerExe =>
              let pagerCmd : Cmd :=
                { Path := pagerExe, Args := pagerExe :: args, Env := env,
                  Stdout := s.Out, Stderr := s.ErrOut }
              let e4 := e3 ++ [.stdinPipe]
              match w.stdinPipe with
              | .error err => ⟨.ok (some err), s, e4⟩
              | .ok pagedOut =>
                let s1 := { s with Out := .pipe pagedOut }
                let e5 := e4 ++ [.processStart pagerCmd]
                match w.start with
                | .error err => ⟨.ok (some err), s1, e5⟩
                | .ok proc => ⟨.ok none, { s1 with pagerProcess := some proc }, e5⟩

def StopPager (s : IOStreams) : Res (Ret Unit) :=
  match s.pagerProcess with
  | none => ⟨.ok (), s, []⟩
  | some proc =>
    if s.Out.isReadCloser then
      ⟨.ok (), { s with pagerProcess := none }, [.close s.Out, .processWait proc]⟩
    else ⟨.panic, s, []⟩

def CanPrompt (w : World) (s : IOStreams) : Bool × List Effect :=
  if s.neverPrompt then (false, [])
  else IsInteractive w s

def SetNeverPrompt (s : IOStreams) (v : Bool) : IOStreams :=
  { s with neverPrompt := v }

def newLine : Nat := 10

def appendMissingCharacter (msg : GoString) (char : Nat) : GoString :=
  let buff := msg
  if buff.length = 0 ∨ buff[buff.length - 1]? ≠ some char then buff ++ [char]
  else buff

def StartProgressIndicatorMsg (w : World) (s : IOStreams) (msg : GoString) : Res Unit :=
  if !s.progressIndicatorEnabled then ⟨(), s, []⟩
  else
    let sp0 : Spinner :=
      { addr := w.newSpinner, Prefix := lit "", FinalMSG := lit "", Writer := s.ErrOut,
        active := false }
    let sp1 := { sp0 with Prefix := appendMissingCharacter msg 32 }
    let sp2 := { sp1 with active := true }
    ⟨(), { s with progressIndicator := some sp2 },
      [.spinnerNew w.newSpinner, .spinnerStart w.newSpinner]⟩

def StartProgressIndicator (w : World) (s : IOStreams) : Res Unit :=
  StartProgressIndicatorMsg w s (lit "")

def StopProgressIndicatorMsg (s : IOStreams) (msg : GoString) : Res Unit :=
  match s.progressIndicator with
  | none => ⟨(), s, []⟩
  | some sp =>
    let sp1 := { sp with FinalMSG := appendMissingCharacter msg newLine }
    let sp2 := { sp1 with active := false }
    ⟨(), { s with progressIndicator := none }, [.spinnerStop sp2]⟩

def StopProgressIndicator (s : IOStreams) : Res Unit :=
  StopProgressIndicatorMsg s (lit "")

def ChangeProgressIndicatorMsg (s : IOStreams) (msg : GoString) : IOStreams :=
  match s.progressIndicator with
  | none => s
  | some sp =>
    { s with progressIndicator := some { sp with Prefix := appendMissingCharacter msg 32 } }

/-- The constructor `System()`; `os.Stdin`, `os.Stdout` and `os.Stderr` are the files
with descriptors 0, 1 and 2. -/
def System (w : World) : IOStreams :=
  let stdoutIsTTY := (isTerminal w 1).1
  let stderrIsTTY := (isTerminal w 2).1
  let pagerCommand := Getenv w.environ (lit "PAGER")
  let io : IOStreams :=
    { In := .file 0
      originalOut := some (.file 1)
      Out := w.newColorable 1
      ErrOut := w.newColorable 2
      colorEnabled := w.envColorForced || (!w.envColorDisabled && stdoutIsTTY)
      is256enabled := w.is256ColorSupported
      pagerCommand := pagerCommand
      terminalTheme := lit ""
      progressIndicatorEnabled := false
      progressIndicator := none
      stdinTTYOverride := false
      stdinIsTTY := false
      stdoutTTYOverride := false
      stdoutIsTTY := false
      stderrTTYOverride := false
      stderrIsTTY := false
      pagerProcess := none
      neverPrompt := false
      TempFileOverride := none }
  let io1 := if stdoutIsTTY && stderrIsTTY then { io with progressIndicatorEnabled := true } else io
  let io2 := SetStdoutTTY io1 stdoutIsTTY
  SetStderrTTY io2 stderrIsTTY

/-- The constructor `Test()`; the three fresh buffers are numbered 0, 1 and 2. -/
def Test : IOStreams :=
  { In := .nopCloser 0
    Out := .buffer 1
    ErrOut := .buffer 2
    originalOut := none
    colorEnabled := false
    is256enabled := false
    terminalTheme := lit ""
    progressIndicatorEnabled := false
    progressIndicator := none
    stdinTTYOverride := false
    stdinIsTTY := false
    stdoutTTYOverride := false
    stdoutIsTTY := false
    stderrTTYOverride := false
    stderrIsTTY := false
    pagerCommand := lit ""
    pagerProcess := none
    neverPrompt := false
    TempFileOverride := none }

/-- The calls on a bundle that may change it. -/
inductive Op where
  | SetStdinTTY (isTTY : Bool)
  | SetStdoutTTY (isTTY : Bool)
  | SetStderrTTY (isTTY : Bool)
  | SetPager (cmd : GoString)
  | StartPager
  | StopPager
  | SetNeverPrompt (v : Bool)
  | StartProgressIndicatorMsg (msg : GoString)
  | StopProgressIndicatorMsg (msg : GoString)
  | ChangeProgressIndicatorMsg (msg : GoString)
  | DetectTerminalTheme
deriving DecidableEq, Repr

/-- One call: the bundle after it, and whether the call panicked. -/
def step (w : World) (op : Op) (s : IOStreams) : IOStreams × Bool :=
  match op with
  | .SetStdinTTY v => (SetStdinTTY s v, false)
  | .SetStdoutTTY v => (SetStdoutTTY s v, false)
  | .SetStderrTTY v => (SetStderrTTY s v, false)
  | .SetPager cmd => (SetPager s cmd, false)
  | .StartPager => ((StartPager w s).io, decide ((StartPager w s).ret = .panic))
  | .StopPager => ((StopPager s).io, decide ((StopPager s).ret = .panic))
  | .SetNeverPrompt v => (SetNeverPrompt s v, false)
  | .StartProgressIndicatorMsg msg => ((StartProgressIndicatorMsg w s msg).io, false)
  | .StopProgressIndicatorMsg msg => ((StopProgressIndicatorMsg s msg).io, false)
  | .ChangeProgressIndicatorMsg msg => (ChangeProgressIndicatorMsg s msg, false)
  | .DetectTerminalTheme => ((DetectTerminalTheme w s).io, false)

/-- A sequence of calls, each with the outside as it is at that time; the sequence
ends at the first panic. -/
def run : List (World × Op) → IOStreams → IOStreams × Bool
  | [], s => (s, false)
  | (w, op) :: rest, s =>
    match step w op s with
    | (s1, true) => (s1, true)
    | (s1, false) => run rest s1

/-- The bundles in which an active pager has the pipe as output. -/
def pagerWired (s : IOStreams) : Prop :=
  s.pagerProcess ≠ none → ∃ id, s.Out = .pipe id

/-- Whether the environment block has an entry for the variable `name`. -/
def isSet (environ : List GoString) (name : GoString) : Bool :=
  environ.any (fun e => HasPrefix e (name ++ lit "="))

/-- The child environment as the specification words it: the current environment
without the entries that begin with `PAGER=`, then `LESS=FRX` when `LESS` is not
set, then `LV=-c` when `LV` is not set. -/
def specPagerEnv (environ : List GoString) : List GoString :=
  environ.filter (fun e => !HasPrefix e (lit "PAGER="))
    ++ (if isSet environ (lit "LESS") then [] else [lit "LESS=FRX"])
    ++ (if isSet environ (lit "LV") then [] else [lit "LV=-c"])

/-- A terminal session: the three standard streams are terminals, `PAGER` is `less`,
every command string is one token, every executable is found under `/usr/bin/`, the
pipe can be made, and the pager process starts with the given result. -/
def terminalWorld (dark : Bool) (start : Except GoError Nat) : World :=
  { environ := [lit "HOME=/root", lit "PAGER=less", lit "TERM=xterm", lit "PAGER=more",
      lit "LV=-z"]
    isatty := fun _ => true
    isCygwin := fun _ => false
    hasDarkBackground := dark
    shlexSplit := fun cmd => .ok [cmd]
    lookPath := fun file => .ok (lit "/usr/bin/" ++ file)
    stdinPipe := .ok 7
    start := start
    newSpinner := 1
    newColorable := fun fd => .file fd
    envColorForced := false
    envColorDisabled := false
    is256ColorSupported := true }

/-- The command `StartPager` starts in `terminalWorld` from the pager command `less`
on a bundle made by `System`. -/
def lessCmd : Cmd :=
  { Path := lit "/usr/bin/less"
    Args := [lit "/usr/bin/less"]
    Env := [lit "HOME=/root", lit "TERM=xterm", lit "LV=-z", lit "LESS=FRX"]
    Stdout := .file 1
    Stderr := .file 2 }

/-- The terminal session a moment later: the allocator hands out the next address. -/
def laterWorld : World :=
  { terminalWorld true (.ok 42) with newSpinner := 2 }

/-- A bundle made by `System()` in a terminal session on which a progress indicator
with the message `a` was started and is running. -/
def spinningBundle : IOStreams :=
  (StartProgressIndicatorMsg (terminalWorld true (.ok 42)) (System (terminalWorld true (.ok 42)))
    (lit "a")).io

/-- The error of a process that cannot be started. -/
def startError : GoError := ⟨lit "fork/exec /usr/bin/less: permission denied"⟩

end iostreams

namespace iostreams

/-! ## The environment of the pager child -/

theorem isSet_eq_lookupEnv (environ : List GoString) (name : GoString) :
    (LookupEnv environ name).2 = isSet environ name := by
  unfold LookupEnv isSet
  induction environ with
  | nil => rfl
  | cons e rest ih =>
    by_cases h : HasPrefix e (name ++ lit "=") = true
    · simp [List.find?, h]
    · simp only [Bool.not_eq_true] at h
      simpa [List.find?, h] using ih

theorem pagerEnvLoop_eq (n : Nat) :
    ∀ env : List GoString, n ≤ env.length →
      pagerEnvLoop n env
        = some ((env.take n).filter (fun e => !HasPrefix e (lit "PAGER=")) ++ env.drop n) := by
  induction n with
  | zero => intro env _; simp [pagerEnvLoop]
  | succ i ih =>
    intro env hlen
    have hi : i < env.length := hlen
    have hget : env[i]? = some env[i] := List.getElem?_eq_getElem hi
    have htake : env.take (i + 1) = env.take i ++ [env[i]] := by
      rw [List.take_succ, hget]; rfl
    have hdrop : env.drop i = env[i] :: env.drop (i + 1) := List.drop_eq_getElem_cons hi
    unfold pagerEnvLoop
    rw [hget]
    by_cases hp : HasPrefix env[i] (lit "PAGER=") = true
    · have hlen2 : i ≤ (env.take i ++ env.drop (i + 1)).length := by
        simp [List.length_take]; omega
      have hti : (env.take i).length = i := by simp [List.length_take]; omega
      simp only [hp, if_true]
      rw [ih _ hlen2, htake, List.filter_append]
      have h1 : (env.take i ++ env.drop (i + 1)).take i = env.take i := by
        rw [List.take_append_eq_append_take, hti]; simp
      have h2 : (env.take i ++ env.drop (i + 1)).drop i = env.drop (i + 1) := by
        rw [List.drop_append_eq_append_drop, hti]; simp
      rw [h1, h2]
      simp [List.filter, hp]
    · simp only [Bool.not_eq_true] at hp
      simp only [hp, Bool.false_eq_true, if_false]
      rw [ih env (Nat.le_of_lt hi), htake, List.filter_append, hdrop]
      simp [List.filter, hp]

theorem pagerEnv_eq_spec (environ : List GoString) :
    pagerEnv environ = some (specPagerEnv environ) := by
  unfold pagerEnv specPagerEnv
  rw [pagerEnvLoop_eq environ.length environ (Nat.le_refl _)]
  simp only [List.take_length, List.drop_length, List.append_nil, isSet_eq_lookupEnv]
  by_cases h1 : isSet environ (lit "LESS") = true <;>
    by_cases h2 : isSet environ (lit "LV") = true <;> simp [h1, h2]

/-! ## Terminal classification -/

theorem isTerminal_effects_probe (w : World) (fd : Nat) :
    ∀ e ∈ (isTerminal w fd).2, e.isTerminalProbe = true := by
  intro e he
  unfold isTerminal at he
  split at he
  · simp only [List.mem_singleton] at he
    subst he; rfl
  · simp only [List.mem_cons, List.mem_singleton, List.not_mem_nil, or_false] at he
    rcases he with rfl | rfl <;> rfl

theorem IsStdoutTTY_effects_probe (w : World) (s : IOStreams) :
    ∀ e ∈ (IsStdoutTTY w s).2, e.isTerminalProbe = true := by
  intro e he
  unfold IsStdoutTTY at he
  split at he
  · simp at he
  · split at he
    · exact isTerminal_effects_probe w _ e he
    · simp at he

/-- C2. When the pager command is empty or `cat`, or standard output is not a
terminal, `StartPager` returns nil, the bundle after the call is the bundle before it
(so `Out`, `ErrOut`, `originalOut` and the pager process are unchanged), and the only
outside calls made are terminal probes: no environment lookup, no tokenization, no
executable search, no pipe and no process start. -/
theorem StartPager_noop (w : World) (s : IOStreams)
    (h : s.pagerCommand = lit "" ∨ s.pagerCommand = lit "cat" ∨ (IsStdoutTTY w s).1 = false) :
    (StartPager w s).ret = .ok none ∧ (StartPager w s).io = s ∧
      ∀ e ∈ (StartPager w s).effects, e.isTerminalProbe = true := by
  unfold StartPager
  by_cases hc : s.pagerCommand = lit "" ∨ s.pagerCommand = lit "cat"
  · simp [hc]
  · have ht : (IsStdoutTTY w s).1 = false := by
      rcases h with h | h | h
      · exact absurd (Or.inl h) hc
      · exact absurd (Or.inr h) hc
      · exact h
    simp only [hc, if_false, ht, Bool.not_false, if_true, true_and]
    exact IsStdoutTTY_effects_probe w s

/-- Witness of C2: a test bundle whose pager is set to `less` has a buffer as output,
which is not a terminal. -/
theorem StartPager_noop_witness :
    ((SetPager Test (lit "less")).pagerCommand = lit "" ∨
        (SetPager Test (lit "less")).pagerCommand = lit "cat" ∨
        (IsStdoutTTY (terminalWorld true (.ok 42)) (SetPager Test (lit "less"))).1 = false) ∧
      ((StartPager (terminalWorld true (.ok 42)) (SetPager Test (lit "less"))).ret = .ok none ∧
        (StartPager (terminalWorld true (.ok 42)) (SetPager Test (lit "less"))).io
          = SetPager Test (lit "less") ∧
        ∀ e ∈ (StartPager (terminalWorld true (.ok 42)) (SetPager Test (lit "less"))).effects,
          e.isTerminalProbe = true) :=
  ⟨by decide, StartPager_noop (terminalWorld true (.ok 42)) (SetPager Test (lit "less"))
    (by decide)⟩

/-- C3. The environment `StartPager` builds for the pager child is the current
environment without the entries that begin with `PAGER=`, the others in their order,
followed by `LESS=FRX` exactly when `LESS` is not set, followed by `LV=-c` exactly when
`LV` is not set; and every call of `pagerCmd.Start()` that `StartPager` makes is on a
command with that environment. -/
theorem StartPager_child_environment (w : World) (s : IOStreams) :
    pagerEnv w.environ = some (specPagerEnv w.environ) ∧
      ∀ cmd : Cmd, Effect.processStart cmd ∈ (StartPager w s).effects →
        cmd.Env = specPagerEnv w.environ := by
  refine ⟨pagerEnv_eq_spec w.environ, ?_⟩
  intro cmd hmem
  have hprobe := IsStdoutTTY_effects_probe w s (Effect.processStart cmd)
  have hno : Effect.processStart cmd ∉ (IsStdoutTTY w s).2 := by
    intro hin
    have := hprobe hin
    simp [Effect.isTerminalProbe] at this
  unfold StartPager at hmem
  rw [pagerEnv_eq_spec w.environ] at hmem
  by_cases hc : s.pagerCommand = lit "" ∨ s.pagerCommand = lit "cat"
  · simp [hc] at hmem
  · by_cases ht : (IsStdoutTTY w s).1 = true
    · simp only [hc, if_false, ht, Bool.not_true, Bool.false_eq_true] at hmem
      cases hs : w.shlexSplit s.pagerCommand with
      | error err => simp [hs, hno] at hmem
      | ok pagerArgs =>
        cases pagerArgs with
        | nil => simp [hs, hno, pagerEnvEffects] at hmem
        | cons arg0 args =>
          cases hl : w.lookPath arg0 with
          | error err => simp [hs, hl, hno, pagerEnvEffects] at hmem
          | ok pagerExe =>
            cases hq : w.stdinPipe with
            | error err => simp [hs, hl, hq, hno, pagerEnvEffects] at hmem
            | ok pagedOut =>
              cases hst : w.start with
              | error err =>
                simp [hs, hl, hq, hst, hno, pagerEnvEffects] at hmem
                rw [hmem]
              | ok proc =>
                simp [hs, hl, hq, hst, hno, pagerEnvEffects] at hmem
                rw [hmem]
    · simp only [Bool.not_eq_true] at ht
      simp [hc, ht, hno] at hmem

/-- Witness of C3: in a terminal session with two `PAGER` entries, `LV` set and `LESS`
not set, the pager is started with the environment of `lessCmd`. -/
theorem StartPager_child_environment_witness :
    Effect.processStart lessCmd ∈
        (StartPager (terminalWorld true (.ok 42)) (System (terminalWorld true (.ok 42)))).effects ∧
      lessCmd.Env = specPagerEnv (terminalWorld true (.ok 42)).environ :=
  ⟨by decide,
    (StartPager_child_environment (terminalWorld true (.ok 42))
      (System (terminalWorld true (.ok 42)))).2 lessCmd (by decide)⟩

/-- C4. For each of the three streams, after `SetXTTY(v)` the next `IsXTTY()` returns
`v` and probes nothing, whatever the handle and whatever the live probe would answer;
with no override set, `IsXTTY()` returns false when the handle is not an `*os.File`,
as for the three streams of a `Test()` bundle. -/
theorem IsTTY_override_and_default (w : World) (s : IOStreams) (v : Bool) :
    (IsStdinTTY w (SetStdinTTY s v) = (v, []) ∧
      IsStdoutTTY w (SetStdoutTTY s v) = (v, []) ∧
      IsStderrTTY w (SetStderrTTY s v) = (v, [])) ∧
    ((s.stdinTTYOverride = false → s.In.asFile = none → (IsStdinTTY w s).1 = false) ∧
      (s.stdoutTTYOverride = false → s.Out.asFile = none → (IsStdoutTTY w s).1 = false) ∧
      (s.stderrTTYOverride = false → s.ErrOut.asFile = none → (IsStderrTTY w s).1 = false)) ∧
    ((IsStdinTTY w Test).1 = false ∧ (IsStdoutTTY w Test).1 = false ∧
      (IsStderrTTY w Test).1 = false) := by
  refine ⟨⟨?_, ?_, ?_⟩, ⟨?_, ?_, ?_⟩, ⟨?_, ?_, ?_⟩⟩
  · simp [IsStdinTTY, SetStdinTTY]
  · simp [IsStdoutTTY, SetStdoutTTY]
  · simp [IsStderrTTY, SetStderrTTY]
  · intro h1 h2; simp [IsStdinTTY, h1, h2]
  · intro h1 h2; simp [IsStdoutTTY, h1, h2]
  · intro h1 h2; simp [IsStderrTTY, h1, h2]
  · simp [IsStdinTTY, Test, Handle.asFile]
  · simp [IsStdoutTTY, Test, Handle.asFile]
  · simp [IsStderrTTY, Test, Handle.asFile]

/-- Witness of C4: the test bundle, whose output is a buffer and has no override, in a
world where every descriptor is a terminal. -/
theorem IsTTY_override_and_default_witness :
    Test.stdoutTTYOverride = false ∧
      Test.Out.asFile = none ∧
      (IsStdoutTTY (terminalWorld true (.ok 42)) Test).1 = false ∧
      IsStdoutTTY (terminalWorld true (.ok 42)) (SetStdoutTTY Test true) = (true, []) ∧
      Test.stdinTTYOverride = false ∧
      Test.In.asFile = none ∧
      (IsStdinTTY (terminalWorld true (.ok 42)) Test).1 = false ∧
      Test.stderrTTYOverride = false ∧
      Test.ErrOut.asFile = none ∧
      (IsStderrTTY (terminalWorld true (.ok 42)) Test).1 = false :=
  ⟨by decide, by decide,
    (IsTTY_override_and_default (terminalWorld true (.ok 42)) Test true).2.1.2.1
      (by decide) (by decide),
    (IsTTY_override_and_default (terminalWorld true (.ok 42)) Test true).1.2.1,
    by decide, by decide,
    (IsTTY_override_and_default (terminalWorld true (.ok 42)) Test true).2.1.1
      (by decide) (by decide),
    by decide, by decide,
    (IsTTY_override_and_default (terminalWorld true (.ok 42)) Test true).2.1.2.2
      (by decide) (by decide)⟩

/-- C5. `CanPrompt()` is true exactly when prompting is not suppressed and
`IsStdinTTY()` and `IsStdoutTTY()` are both true, `IsInteractive()` being their
conjunction. A fresh `Test()` bundle cannot prompt; after `SetStdinTTY(true)` and
`SetStdoutTTY(true)` a bundle can prompt exactly when prompting is not suppressed, so
the test bundle can, and cannot once `SetNeverPrompt(true)` was called, before or after
the two overrides. -/
theorem CanPrompt_iff (w : World) (s : IOStreams) :
    ((CanPrompt w s).1 = true ↔
      (s.neverPrompt = false ∧ (IsStdinTTY w s).1 = true ∧ (IsStdoutTTY w s).1 = true)) ∧
    ((IsInteractive w s).1 = ((IsStdinTTY w s).1 && (IsStdoutTTY w s).1)) ∧
    (CanPrompt w Test).1 = false ∧
    (CanPrompt w (SetStdoutTTY (SetStdinTTY s true) true)).1 = !s.neverPrompt ∧
    (CanPrompt w (SetStdoutTTY (SetStdinTTY Test true) true)).1 = true ∧
    (CanPrompt w (SetNeverPrompt (SetStdoutTTY (SetStdinTTY s true) true) true)).1 = false ∧
    (CanPrompt w (SetStdoutTTY (SetStdinTTY (SetNeverPrompt s true) true) true)).1 = false := by
  have hint : (IsInteractive w s).1 = ((IsStdinTTY w s).1 && (IsStdoutTTY w s).1) := by
    unfold IsInteractive
    cases h : (IsStdinTTY w s).1 <;> simp [h]
  refine ⟨?_, hint, ?_, ?_, ?_, ?_, ?_⟩
  · unfold CanPrompt
    cases hn : s.neverPrompt
    · simp [hint]
    · simp
  · simp [CanPrompt, IsInteractive, IsStdinTTY, Test, Handle.asFile]
  · cases hn : s.neverPrompt <;>
      simp [CanPrompt, IsInteractive, IsStdinTTY, IsStdoutTTY, SetStdinTTY, SetStdoutTTY, hn]
  · simp [CanPrompt, IsInteractive, IsStdinTTY, IsStdoutTTY, SetStdinTTY, SetStdoutTTY, Test]
  · simp [CanPrompt, SetNeverPrompt]
  · simp [CanPrompt, SetNeverPrompt, SetStdinTTY, SetStdoutTTY]

/-! ## Sequences of calls -/

theorem StartPager_io_cases (w : World) (s : IOStreams) :
    (StartPager w s).io = s ∨
      (∃ id, (StartPager w s).io = { s with Out := .pipe id }) ∨
      (∃ id proc, (StartPager w s).io = { s with Out := .pipe id, pagerProcess := some proc }) := by
  unfold StartPager
  by_cases hc : s.pagerCommand = lit "" ∨ s.pagerCommand = lit "cat"
  · simp [hc]
  · by_cases ht : (IsStdoutTTY w s).1 = true
    · simp only [hc, if_false, ht, Bool.not_true, Bool.false_eq_true]
      cases hs : w.shlexSplit s.pagerCommand with
      | error err => exact Or.inl rfl
      | ok pagerArgs =>
        cases he : pagerEnv w.environ with
        | none => exact Or.inl rfl
        | some env =>
          cases pagerArgs with
          | nil => exact Or.inl rfl
          | cons arg0 args =>
            cases hl : w.lookPath arg0 with
            | error err => exact Or.inl (by simp only [hl])
            | ok pagerExe =>
              cases hq : w.stdinPipe with
              | error err => exact Or.inl (by simp only [hl, hq])
              | ok pagedOut =>
                cases hst : w.start with
                | error err => exact Or.inr (Or.inl ⟨pagedOut, by simp only [hl, hq, hst]⟩)
                | ok proc => exact Or.inr (Or.inr ⟨pagedOut, proc, by simp only [hl, hq, hst]⟩)
    · simp only [Bool.not_eq_true] at ht
      simp [hc, ht]

theorem StopPager_io_cases (s : IOStreams) :
    (StopPager s).io = s ∨ (StopPager s).io = { s with pagerProcess := none } := by
  unfold StopPager
  cases hp : s.pagerProcess with
  | none => simp
  | some proc =>
    by_cases hr : s.Out.isReadCloser = true
    · simp [hr]
    · simp [hr]

theorem step_originalOut (w : World) (op : Op) (s : IOStreams) :
    (step w op s).1.originalOut = s.originalOut := by
  cases op with
  | StartPager =>
    rcases StartPager_io_cases w s with h | ⟨id, h⟩ | ⟨id, proc, h⟩ <;> simp [step, h]
  | StopPager =>
    rcases StopPager_io_cases s with h | h <;> simp [step, h]
  | StartProgressIndicatorMsg msg =>
    simp only [step, StartProgressIndicatorMsg]; split <;> rfl
  | StopProgressIndicatorMsg msg =>
    simp only [step, StopProgressIndicatorMsg]; split <;> rfl
  | ChangeProgressIndicatorMsg msg =>
    simp only [step, ChangeProgressIndicatorMsg]; split <;> rfl
  | DetectTerminalTheme =>
    simp only [step, DetectTerminalTheme]; split_ifs <;> rfl
  | _ => rfl

theorem run_originalOut (ops : List (World × Op)) :
    ∀ s : IOStreams, (run ops s).1.originalOut = s.originalOut := by
  induction ops with
  | nil => intro s; rfl
  | cons p rest ih =>
    intro s
    obtain ⟨w, op⟩ := p
    have hs := step_originalOut w op s
    unfold run
    cases hstep : step w op s with
    | mk s1 b =>
      rw [hstep] at hs
      cases b with
      | true => simpa using hs
      | false => simp only []; rw [ih s1]; exact hs

theorem step_pagerWired (w : World) (op : Op) (s : IOStreams) (h : pagerWired s) :
    pagerWired (step w op s).1 := by
  unfold pagerWired at h ⊢
  cases op with
  | StartPager =>
    rcases StartPager_io_cases w s with h1 | ⟨id, h1⟩ | ⟨id, proc, h1⟩
    · simpa [step, h1] using h
    · simp only [step, h1]; intro _; exact ⟨id, rfl⟩
    · simp only [step, h1]; intro _; exact ⟨id, rfl⟩
  | StopPager =>
    rcases StopPager_io_cases s with h1 | h1
    · simpa [step, h1] using h
    · simp [step, h1]
  | StartProgressIndicatorMsg msg =>
    simp only [step, StartProgressIndicatorMsg]; split <;> exact h
  | StopProgressIndicatorMsg msg =>
    simp only [step, StopProgressIndicatorMsg]; split <;> exact h
  | ChangeProgressIndicatorMsg msg =>
    simp only [step, ChangeProgressIndicatorMsg]; split <;> exact h
  | DetectTerminalTheme =>
    simp only [step, DetectTerminalTheme]; split_ifs <;> exact h
  | _ => exact h

theorem run_pagerWired (ops : List (World × Op)) :
    ∀ s : IOStreams, pagerWired s → pagerWired (run ops s).1 := by
  induction ops with
  | nil => intro s h; exact h
  | cons p rest ih =>
    intro s h
    obtain ⟨w, op⟩ := p
    have hs := step_pagerWired w op s h
    unfold run
    cases hstep : step w op s with
    | mk s1 b =>
      rw [hstep] at hs
      cases b with
      | true => simpa using hs
      | false => simp only []; exact ih s1 hs

theorem step_terminalTheme (w : World) (op : Op) (s : IOStreams)
    (hop : op ≠ .DetectTerminalTheme) :
    (step w op s).1.terminalTheme = s.terminalTheme := by
  cases op with
  | StartPager =>
    rcases StartPager_io_cases w s with h | ⟨id, h⟩ | ⟨id, proc, h⟩ <;> simp [step, h]
  | StopPager =>
    rcases StopPager_io_cases s with h | h <;> simp [step, h]
  | StartProgressIndicatorMsg msg =>
    simp only [step, StartProgressIndicatorMsg]; split <;> rfl
  | StopProgressIndicatorMsg msg =>
    simp only [step, StopProgressIndicatorMsg]; split <;> rfl
  | ChangeProgressIndicatorMsg msg =>
    simp only [step, ChangeProgressIndicatorMsg]; split <;> rfl
  | DetectTerminalTheme => exact absurd rfl hop
  | _ => rfl

theorem run_terminalTheme (ops : List (World × Op))
    (hops : ∀ p ∈ ops, p.2 ≠ Op.DetectTerminalTheme) :
    ∀ s : IOStreams, (run ops s).1.terminalTheme = s.terminalTheme := by
  induction ops with
  | nil => intro s; rfl
  | cons p rest ih =>
    intro s
    obtain ⟨w, op⟩ := p
    have hs := step_terminalTheme w op s (hops (w, op) (List.mem_cons_self _ _))
    have ih2 := ih (fun q hq => hops q (List.mem_cons_of_mem _ hq))
    unfold run
    cases hstep : step w op s with
    | mk s1 b =>
      rw [hstep] at hs
      cases b with
      | true => simpa using hs
      | false => simp only []; rw [ih2 s1]; exact hs

theorem System_terminalTheme (w : World) : (System w).terminalTheme = lit "" := by
  unfold System SetStderrTTY SetStdoutTTY
  simp only []
  split <;> rfl

/-! ## Theme detection -/

/-- C6. When color is disabled or a pager is active, `DetectTerminalTheme()` returns
`none` with no outside call at all (the background is not consulted, so the result is
the same in every world), and `TerminalTheme()` afterwards returns `none`.
`TerminalTheme()` also returns `none` on a bundle whose theme was never detected: one
whose cached theme is empty, as is every bundle made by `Test()` or `System()` and
then used through any calls other than `DetectTerminalTheme()`. -/
theorem DetectTerminalTheme_none :
    (∀ (w : World) (s : IOStreams), (s.colorEnabled = false ∨ s.pagerProcess ≠ none) →
      (DetectTerminalTheme w s).ret = lit "none" ∧
      (DetectTerminalTheme w s).effects = [] ∧
      TerminalTheme (DetectTerminalTheme w s).io = lit "none" ∧
      ∀ w2 : World, (DetectTerminalTheme w2 s).ret = (DetectTerminalTheme w s).ret) ∧
    (∀ s : IOStreams, s.terminalTheme = lit "" → TerminalTheme s = lit "none") ∧
    (∀ (ops : List (World × Op)) (w0 : World),
      (∀ p ∈ ops, p.2 ≠ Op.DetectTerminalTheme) →
      TerminalTheme (run ops Test).1 = lit "none" ∧
      TerminalTheme (run ops (System w0)).1 = lit "none") := by
  have key : ∀ (w : World) (s : IOStreams), (s.colorEnabled = false ∨ s.pagerProcess ≠ none) →
      DetectTerminalTheme w s = ⟨lit "none", { s with terminalTheme := lit "none" }, []⟩ := by
    intro w s h
    unfold DetectTerminalTheme ColorEnabled
    by_cases hc : s.colorEnabled = true
    · rcases h with h | h
      · rw [hc] at h; exact absurd h (by decide)
      · simp [hc, h]
    · simp only [Bool.not_eq_true] at hc
      simp [hc]
  have hempty : ∀ s : IOStreams, s.terminalTheme = lit "" → TerminalTheme s = lit "none" := by
    intro s h
    simp [TerminalTheme, h]
  refine ⟨?_, hempty, ?_⟩
  · intro w s h
    rw [key w s h]
    refine ⟨rfl, rfl, ?_, ?_⟩
    · simp only [TerminalTheme]
      rw [if_neg (by decide)]
    · intro w2
      rw [key w2 s h]
  · intro ops w0 hops
    constructor
    · apply hempty
      rw [run_terminalTheme ops hops]
      rfl
    · apply hempty
      rw [run_terminalTheme ops hops]
      exact System_terminalTheme w0

/-- Witness of C6: a bundle made by `System()` in a terminal session whose pager has
been started, detecting in a world with a dark and in one with a light background; and
the same bundle on which detection was never invoked. -/
theorem DetectTerminalTheme_none_witness :
    ((StartPager (terminalWorld true (.ok 42)) (System (terminalWorld true (.ok 42)))).io.colorEnabled
          = false ∨
        (StartPager (terminalWorld true (.ok 42)) (System (terminalWorld true (.ok 42)))).io.pagerProcess
          ≠ none) ∧
      (DetectTerminalTheme (terminalWorld true (.ok 42))
          (StartPager (terminalWorld true (.ok 42)) (System (terminalWorld true (.ok 42)))).io).ret
        = lit "none" ∧
      (DetectTerminalTheme (terminalWorld false (.ok 42))
          (StartPager (terminalWorld true (.ok 42)) (System (terminalWorld true (.ok 42)))).io).ret
        = (DetectTerminalTheme (terminalWorld true (.ok 42))
          (StartPager (terminalWorld true (.ok 42)) (System (terminalWorld true (.ok 42)))).io).ret ∧
      TerminalTheme
          (run [(terminalWorld true (.ok 42), Op.StartPager), (terminalWorld true (.ok 42), Op.StopPager)]
            (System (terminalWorld true (.ok 42)))).1
        = lit "none" ∧
      Test.terminalTheme = lit "" ∧
      TerminalTheme Test = lit "none" :=
  ⟨by decide,
    (DetectTerminalTheme_none.1 (terminalWorld true (.ok 42))
      (StartPager (terminalWorld true (.ok 42)) (System (terminalWorld true (.ok 42)))).io
      (by decide)).1,
    (DetectTerminalTheme_none.1 (terminalWorld true (.ok 42))
      (StartPager (terminalWorld true (.ok 42)) (System (terminalWorld true (.ok 42)))).io
      (by decide)).2.2.2 (terminalWorld false (.ok 42)),
    (DetectTerminalTheme_none.2.2
      [(terminalWorld true (.ok 42), Op.StartPager), (terminalWorld true (.ok 42), Op.StopPager)]
      (terminalWorld true (.ok 42)) (by decide)).2,
    by decide, DetectTerminalTheme_none.2.1 Test (by decide)⟩

/-- Counterexample to C7: on a bundle with color enabled, no pager and no style
override, a first detection in front of a dark background returns `dark`; a second
detection on the same bundle, when the background is light, probes the background
again and returns `light`, not the value of the first detection. -/
theorem DetectTerminalTheme_not_cached :
    (System (terminalWorld true (.ok 42))).colorEnabled = true ∧
      (System (terminalWorld true (.ok 42))).pagerProcess = none ∧
      Getenv (terminalWorld true (.ok 42)).environ (lit "GLAMOUR_STYLE") = lit "" ∧
      (DetectTerminalTheme (terminalWorld true (.ok 42)) (System (terminalWorld true (.ok 42)))).ret
        = lit "dark" ∧
      (DetectTerminalTheme (terminalWorld false (.ok 42))
          (DetectTerminalTheme (terminalWorld true (.ok 42))
            (System (terminalWorld true (.ok 42)))).io).ret = lit "light" ∧
      Effect.hasDarkBackground ∈
        (DetectTerminalTheme (terminalWorld false (.ok 42))
          (DetectTerminalTheme (terminalWorld true (.ok 42))
            (System (terminalWorld true (.ok 42)))).io).effects ∧
      (DetectTerminalTheme (terminalWorld false (.ok 42))
          (DetectTerminalTheme (terminalWorld true (.ok 42))
            (System (terminalWorld true (.ok 42)))).io).ret
        ≠ (DetectTerminalTheme (terminalWorld true (.ok 42))
            (System (terminalWorld true (.ok 42)))).ret := by
  decide

/-- C7, amended. On a bundle with color enabled and no active pager, every call of
`DetectTerminalTheme()` made while no style override is set, the first one or a later
one, probes the terminal background and returns `dark` when the probe answers dark at
that time and `light` otherwise, whatever an earlier detection returned; the value is
stored, and `TerminalTheme()` returns the value of the latest detection. -/
theorem DetectTerminalTheme_probes_each_call (w1 w2 : World) (s : IOStreams)
    (hcolor : s.colorEnabled = true) (hpager : s.pagerProcess = none)
    (hstyle : Getenv w2.environ (lit "GLAMOUR_STYLE") = lit "" ∨
      Getenv w2.environ (lit "GLAMOUR_STYLE") = lit "auto") :
    (DetectTerminalTheme w2 (DetectTerminalTheme w1 s).io).ret
        = (if w2.hasDarkBackground then lit "dark" else lit "light") ∧
      (DetectTerminalTheme w2 (DetectTerminalTheme w1 s).io).effects
        = [.getenv (lit "GLAMOUR_STYLE"), .hasDarkBackground] ∧
      (DetectTerminalTheme w2 s).ret = (if w2.hasDarkBackground then lit "dark" else lit "light") ∧
      (DetectTerminalTheme w2 s).effects = [.getenv (lit "GLAMOUR_STYLE"), .hasDarkBackground] ∧
      TerminalTheme (DetectTerminalTheme w2 (DetectTerminalTheme w1 s).io).io
        = (DetectTerminalTheme w2 (DetectTerminalTheme w1 s).io).ret := by
  have hno : ¬ (Getenv w2.environ (lit "GLAMOUR_STYLE") ≠ lit "" ∧
      Getenv w2.environ (lit "GLAMOUR_STYLE") ≠ lit "auto") := by
    rintro ⟨h1, h2⟩
    rcases hstyle with h | h
    · exact h1 h
    · exact h2 h
  have key : ∀ t : IOStreams, t.colorEnabled = true → t.pagerProcess = none →
      DetectTerminalTheme w2 t
        = if w2.hasDarkBackground then
            ⟨lit "dark", { t with terminalTheme := lit "dark" },
              [.getenv (lit "GLAMOUR_STYLE"), .hasDarkBackground]⟩
          else
            ⟨lit "light", { t with terminalTheme := lit "light" },
              [.getenv (lit "GLAMOUR_STYLE"), .hasDarkBackground]⟩ := by
    intro t hc hp
    unfold DetectTerminalTheme ColorEnabled
    simp only [hc, hp, Bool.not_true, Bool.false_eq_true, if_false, ne_eq, not_true_eq_false, hno]
  have hc1 : (DetectTerminalTheme w1 s).io.colorEnabled = true := by
    simp only [DetectTerminalTheme]
    split_ifs <;> exact hcolor
  have hp1 : (DetectTerminalTheme w1 s).io.pagerProcess = none := by
    simp only [DetectTerminalTheme]
    split_ifs <;> exact hpager
  rw [key _ hc1 hp1, key s hcolor hpager]
  cases hd : w2.hasDarkBackground
  · refine ⟨rfl, rfl, rfl, rfl, ?_⟩
    simp only [Bool.false_eq_true, if_false, TerminalTheme]
    rw [if_neg (by decide)]
  · refine ⟨rfl, rfl, rfl, rfl, ?_⟩
    simp only [if_true, TerminalTheme]
    rw [if_neg (by decide)]

/-- Witness of C7, amended: after a detection in front of a dark background, a
detection in front of a light one. -/
theorem DetectTerminalTheme_probes_each_call_witness :
    (System (terminalWorld true (.ok 42))).colorEnabled = true ∧
      (System (terminalWorld true (.ok 42))).pagerProcess = none ∧
      Getenv (terminalWorld false (.ok 42)).environ (lit "GLAMOUR_STYLE") = lit "" ∧
      (DetectTerminalTheme (terminalWorld false (.ok 42))
          (DetectTerminalTheme (terminalWorld true (.ok 42))
            (System (terminalWorld true (.ok 42)))).io).ret
        = (if (terminalWorld false (.ok 42)).hasDarkBackground then lit "dark" else lit "light") :=
  ⟨by decide, by decide, by decide,
    (DetectTerminalTheme_probes_each_call (terminalWorld true (.ok 42))
      (terminalWorld false (.ok 42)) (System (terminalWorld true (.ok 42)))
      (by decide) (by decide) (Or.inl (by decide))).1⟩

/-! ## The progress indicator -/

/-- C8, the code at the failing input. A bundle whose gate is enabled owns the running
indicator at address 1. `StartProgressIndicatorMsg("b")` on it allocates and starts a
second indicator, at address 2, and stores it in place of the first: the call is not a
no-op, the first indicator is never stopped, and the bundle no longer holds it. On a
test bundle, whose gate is disabled, the call changes nothing and makes no outside
call. -/
theorem StartProgressIndicatorMsg_replaces_running :
    spinningBundle.progressIndicatorEnabled = true ∧
      spinningBundle.progressIndicator
        = some { addr := 1, Prefix := lit "a ", FinalMSG := lit "", Writer := .file 2,
                 active := true } ∧
      (StartProgressIndicatorMsg laterWorld spinningBundle (lit "b")).effects
        = [.spinnerNew 2, .spinnerStart 2] ∧
      (StartProgressIndicatorMsg laterWorld spinningBundle (lit "b")).io.progressIndicator
        = some { addr := 2, Prefix := lit "b ", FinalMSG := lit "", Writer := .file 2,
                 active := true } ∧
      (StartProgressIndicatorMsg laterWorld spinningBundle (lit "b")).io ≠ spinningBundle ∧
      Test.progressIndicatorEnabled = false ∧
      (StartProgressIndicatorMsg laterWorld Test (lit "b")).io = Test ∧
      (StartProgressIndicatorMsg laterWorld Test (lit "b")).effects = [] := by
  decide

theorem appendMissingCharacter_eq (msg : GoString) (char : Nat) :
    appendMissingCharacter msg char = if msg.getLast? = some char then msg else msg ++ [char] := by
  unfold appendMissingCharacter
  rw [List.getLast?_eq_getElem?]
  by_cases h0 : msg.length = 0
  · have : msg = [] := List.length_eq_zero.mp h0
    subst this
    simp
  · by_cases h1 : msg[msg.length - 1]? = some char
    · simp [h0, h1]
    · simp [h0, h1]

/-- Counterexample to C9: the message `a` followed by a tab ends in a whitespace
character, and the prefix of the indicator started with it is not the message itself:
a space is appended after the tab. The same holds for a message changed to it. -/
theorem progress_prefix_after_tab :
    (StartProgressIndicatorMsg (terminalWorld true (.ok 42)) (System (terminalWorld true (.ok 42)))
        [97, 9]).io.progressIndicator.map Spinner.Prefix = some [97, 9, 32] ∧
      (ChangeProgressIndicatorMsg spinningBundle [97, 9]).progressIndicator.map Spinner.Prefix
        = some [97, 9, 32] ∧
      ([97, 9, 32] : GoString) ≠ [97, 9] := by
  decide

/-- C9, amended. For every message passed to `StartProgressIndicatorMsg` on a bundle
whose gate is enabled, or to `ChangeProgressIndicatorMsg` on a bundle that owns an
indicator, the prefix of the indicator is the message itself when its last byte is the
space character (byte 32), and the message followed by exactly one space otherwise: for
the empty message, and also for a message that ends in another whitespace character
such as a tab or a newline. -/
theorem progress_prefix_spec (w : World) (s : IOStreams) (msg : GoString) :
    (s.progressIndicatorEnabled = true →
      (StartProgressIndicatorMsg w s msg).io.progressIndicator.map Spinner.Prefix
        = some (if msg.getLast? = some 32 then msg else msg ++ [32])) ∧
    (s.progressIndicator ≠ none →
      (ChangeProgressIndicatorMsg s msg).progressIndicator.map Spinner.Prefix
        = some (if msg.getLast? = some 32 then msg else msg ++ [32])) := by
  constructor
  · intro h
    simp [StartProgressIndicatorMsg, h, appendMissingCharacter_eq]
  · intro h
    unfold ChangeProgressIndicatorMsg
    cases hp : s.progressIndicator with
    | none => exact absurd hp h
    | some sp => simp [appendMissingCharacter_eq]

/-- Witness of C9, amended: the message `a b`, started and changed to. -/
theorem progress_prefix_spec_witness :
    (System (terminalWorld true (.ok 42))).progressIndicatorEnabled = true ∧
      spinningBundle.progressIndicator ≠ none ∧
      (StartProgressIndicatorMsg (terminalWorld true (.ok 42)) (System (terminalWorld true (.ok 42)))
          (lit "a b")).io.progressIndicator.map Spinner.Prefix
        = some (if (lit "a b").getLast? = some 32 then lit "a b" else lit "a b" ++ [32]) ∧
      (ChangeProgressIndicatorMsg spinningBundle (lit "a b")).progressIndicator.map Spinner.Prefix
        = some (if (lit "a b").getLast? = some 32 then lit "a b" else lit "a b" ++ [32]) :=
  ⟨by decide, by decide,
    (progress_prefix_spec (terminalWorld true (.ok 42)) (System (terminalWorld true (.ok 42)))
      (lit "a b")).1 (by decide),
    (progress_prefix_spec (terminalWorld true (.ok 42)) spinningBundle (lit "a b")).2 (by decide)⟩

/-! ## The pager -/

theorem StartPager_error_before_start (w : World) (s : IOStreams) (proc : Nat)
    (hstart : w.start = .ok proc) (err : GoError)
    (hret : (StartPager w s).ret = .ok (some err)) :
    (StartPager w s).io = s := by
  unfold StartPager at hret ⊢
  by_cases hc : s.pagerCommand = lit "" ∨ s.pagerCommand = lit "cat"
  · simp [hc]
  · by_cases ht : (IsStdoutTTY w s).1 = true
    · simp only [hc, if_false, ht, Bool.not_true, Bool.false_eq_true] at hret ⊢
      cases hs : w.shlexSplit s.pagerCommand with
      | error e => rfl
      | ok pagerArgs =>
        cases he : pagerEnv w.environ with
        | none => rfl
        | some env =>
          cases pagerArgs with
          | nil => rfl
          | cons arg0 args =>
            cases hl : w.lookPath arg0 with
            | error e => simp only [hl]
            | ok pagerExe =>
              cases hq : w.stdinPipe with
              | error e => simp only [hl, hq]
              | ok pagedOut =>
                simp only [hs, he, hl, hq, hstart] at hret
                simp at hret
    · simp only [Bool.not_eq_true] at ht
      simp [hc, ht]

theorem StartPager_panics_without_words (w : World) (s : IOStreams)
    (hc : ¬ (s.pagerCommand = lit "" ∨ s.pagerCommand = lit "cat"))
    (ht : (IsStdoutTTY w s).1 = true) (hs : w.shlexSplit s.pagerCommand = .ok []) :
    (StartPager w s).ret = .panic ∧ (StartPager w s).io = s := by
  unfold StartPager
  simp only [hc, if_false, ht, Bool.not_true, Bool.false_eq_true, hs]
  cases he : pagerEnv w.environ with
  | none => exact ⟨rfl, rfl⟩
  | some env => exact ⟨rfl, rfl⟩

theorem StopPager_of_wired (s : IOStreams) (h : pagerWired s) : (StopPager s).ret = .ok () := by
  unfold StopPager
  cases hp : s.pagerProcess with
  | none => rfl
  | some proc =>
    obtain ⟨id, hid⟩ := h (by simp [hp])
    simp [hid, Handle.isReadCloser]

theorem System_pagerProcess (w : World) : (System w).pagerProcess = none := by
  unfold System SetStderrTTY SetStdoutTTY
  simp only []
  split <;> rfl

/-- C1, the code at the failing input. In a terminal session where the pager command
`less` is tokenized, found, and given a pipe, and the child process then fails to
start, `StartPager` returns the error of the start and records no pager process, but
the output of the bundle, the file of descriptor 1 before the call, is the pipe of the
process that never started after it. -/
theorem StartPager_start_failure_keeps_pipe :
    (System (terminalWorld true (.error startError))).pagerCommand = lit "less" ∧
      (System (terminalWorld true (.error startError))).Out = .file 1 ∧
      (System (terminalWorld true (.error startError))).pagerProcess = none ∧
      (StartPager (terminalWorld true (.error startError))
          (System (terminalWorld true (.error startError)))).ret = .ok (some startError) ∧
      (StartPager (terminalWorld true (.error startError))
          (System (terminalWorld true (.error startError)))).io.pagerProcess = none ∧
      (StartPager (terminalWorld true (.error startError))
          (System (terminalWorld true (.error startError)))).io.Out = .pipe 7 ∧
      (StartPager (terminalWorld true (.error startError))
          (System (terminalWorld true (.error startError)))).io.Out
        ≠ (System (terminalWorld true (.error startError))).Out := by
  decide

/-- C10. `StopPager()` leaves the whole bundle unchanged, with no outside call, when no
pager is active. When a pager is active and the output is the pipe (any value with
`Read` and `Close`), it closes the output, waits for the process, clears the pager
process and changes nothing else: `Out` stays the closed pipe and `originalOut` is not
restored into it. `Out` and `originalOut` are the same after the call as before on
every bundle. A second `StopPager()` in a row changes nothing and makes no outside
call. No sequence of calls, `SetPager`, `StartPager` and `StopPager` among them, changes
`originalOut`; and on every bundle made by `Test()` or `System()` and used through such
calls, an active pager has the pipe as output, so that `StopPager()` returns. -/
theorem StopPager_spec :
    (∀ s : IOStreams, s.pagerProcess = none →
      (StopPager s).ret = .ok () ∧ (StopPager s).io = s ∧ (StopPager s).effects = []) ∧
    (∀ (s : IOStreams) (proc : Nat), s.pagerProcess = some proc → s.Out.isReadCloser = true →
      (StopPager s).ret = .ok () ∧ (StopPager s).io = { s with pagerProcess := none } ∧
      (StopPager s).effects = [.close s.Out, .processWait proc]) ∧
    (∀ s : IOStreams, (StopPager s).io.Out = s.Out ∧
      (StopPager s).io.originalOut = s.originalOut) ∧
    (∀ s : IOStreams, (StopPager s).ret = .ok () →
      (StopPager (StopPager s).io).ret = .ok () ∧
      (StopPager (StopPager s).io).io = (StopPager s).io ∧
      (StopPager (StopPager s).io).effects = []) ∧
    (∀ (ops : List (World × Op)) (s : IOStreams), (run ops s).1.originalOut = s.originalOut) ∧
    (∀ (ops : List (World × Op)) (w0 : World) (s0 : IOStreams), (s0 = Test ∨ s0 = System w0) →
      ((run ops s0).1.pagerProcess ≠ none → ∃ id, (run ops s0).1.Out = .pipe id) ∧
      (StopPager (run ops s0).1).ret = .ok ()) := by
  have hnone : ∀ s : IOStreams, s.pagerProcess = none →
      (StopPager s).ret = .ok () ∧ (StopPager s).io = s ∧ (StopPager s).effects = [] := by
    intro s h
    simp [StopPager, h]
  refine ⟨hnone, ?_, ?_, ?_, run_originalOut, ?_⟩
  · intro s proc hp hr
    simp [StopPager, hp, hr]
  · intro s
    rcases StopPager_io_cases s with h | h <;> simp [h]
  · intro s hret
    apply hnone
    unfold StopPager at hret ⊢
    cases hp : s.pagerProcess with
    | none => simp [hp]
    | some proc =>
      by_cases hr : s.Out.isReadCloser = true
      · simp [hr]
      · simp [hp, hr] at hret
  · intro ops w0 s0 h0
    have hw0 : pagerWired s0 := by
      intro hne
      rcases h0 with h | h
      · subst h; exact absurd rfl hne
      · subst h; exact absurd (System_pagerProcess w0) hne
    have hw := run_pagerWired ops s0 hw0
    exact ⟨hw, StopPager_of_wired _ hw⟩

/-- Witness of C10: the bundle made by `System()` in a terminal session after a
successful `StartPager()`: the pager process 42 is active and the output is the pipe 7. -/
theorem StopPager_spec_witness :
    (StartPager (terminalWorld true (.ok 42)) (System (terminalWorld true (.ok 42)))).io.pagerProcess
        = some 42 ∧
      (StartPager (terminalWorld true (.ok 42))
        (System (terminalWorld true (.ok 42)))).io.Out.isReadCloser = true ∧
      (StopPager
          (StartPager (terminalWorld true (.ok 42)) (System (terminalWorld true (.ok 42)))).io).ret
        = .ok () ∧
      (StopPager Test).io = Test ∧
      (StopPager (run [(terminalWorld true (.ok 42), Op.StartPager)]
          (System (terminalWorld true (.ok 42)))).1).ret = .ok () :=
  ⟨by decide, by decide,
    (StopPager_spec.2.1
      (StartPager (terminalWorld true (.ok 42)) (System (terminalWorld true (.ok 42)))).io 42
      (by decide) (by decide)).1,
    (StopPager_spec.1 Test (by decide)).2.1,
    (StopPager_spec.2.2.2.2.2 [(terminalWorld true (.ok 42), Op.StartPager)]
      (terminalWorld true (.ok 42)) (System (terminalWorld true (.ok 42))) (Or.inr rfl)).2⟩

end iostreams
